import Mathlib

/-!
# Verification of the movie-recommendation service core

Shallow embedding of the repository's API layer (`src/api.py`): the catalog
and rating data model, the content-similarity lookup (`get_similar_movies`),
the top-N recommendation orchestrator (`get_top_n_recommendations`) and the
rating-submission endpoint (`rate_movie`), together with a model of the
latent-factor predictor's prediction rule.

Conventions of the embedding:
* pandas DataFrames become Lean lists of records, kept in row order;
* Python floats become exact rationals `ℚ`;
* a raised `HTTPException(status, detail)` becomes `Except.error ⟨status, detail⟩`;
* the TF-IDF cosine-similarity matrix (computed by the external scikit-learn
  library at module load) is a parameter `Option (List (List ℚ))`: `none`
  mirrors `cosine_sim = None` (no movie has a non-blank genre string),
  `some sim` mirrors the precomputed matrix, row i being the similarity of
  the movie at catalog position i against every catalog position;
* the trained model (the external surprise SVD object) enters the
  recommendation code only through `model.predict(u, i).est`, so it is a
  parameter `predict : Int → Int → ℚ`.
-/

attribute [local semireducible] Rat.add Rat.sub Rat.mul Rat.inv

/-- A row of the `movies` DataFrame after startup normalisation in
`src/api.py` (integer `movieId`, `title`, pipe-joined `genres` string which
may be empty, optional extracted `year`). -/
structure Movie where
  movieId : Int
  title : String
  genres : String
  year : Option Int
deriving DecidableEq, Repr

/-- A row of the `ratings` DataFrame: `(userId, movieId, rating)`. -/
structure Rating where
  userId : Int
  movieId : Int
  rating : ℚ
deriving DecidableEq, Repr

/-- `fastapi.HTTPException(status_code, detail)` as raised by the handlers. -/
structure HTTPException where
  status : Nat
  detail : String
deriving DecidableEq, Repr

instance {ε α : Type} [DecidableEq ε] [DecidableEq α] : DecidableEq (Except ε α) := fun a b =>
  match a, b with
  | .ok x, .ok y => decidable_of_iff (x = y) (by simp)
  | .error x, .error y => decidable_of_iff (x = y) (by simp)
  | .ok _, .error _ => isFalse (fun h => by cases h)
  | .error _, .ok _ => isFalse (fun h => by cases h)

/-- The error raised by `get_similar_movies` when `cosine_sim is None`. -/
def genreUnavailableError : HTTPException :=
  ⟨404, "Genre similarity data not available"⟩

/-- The error raised by `get_similar_movies` when the movie id is absent. -/
def movieNotFoundError : HTTPException :=
  ⟨404, "Movie not found"⟩

/-- The error raised by `get_top_n_recommendations` for a user that appears
in no rating row. -/
def userNotFoundError : HTTPException :=
  ⟨404, "User ID not found"⟩

/-- The record shape returned by `get_similar_movies`: the slice
`movies.iloc[movie_indices][["movieId", "title", "genres", "year"]]`
converted `to_dict(orient="records")`. Note there is no score field. -/
structure MovieRecord where
  movieId : Int
  title : String
  genres : String
  year : Option Int
deriving DecidableEq, Repr

/-- Projection of a catalog row to the record returned by
`get_similar_movies`. -/
def movieRecord (m : Movie) : MovieRecord :=
  ⟨m.movieId, m.title, m.genres, m.year⟩

/-- Python's `str.strip()`: remove leading and trailing whitespace. -/
def pyStrip (s : String) : String :=
  ⟨((s.data.dropWhile Char.isWhitespace).reverse.dropWhile Char.isWhitespace).reverse⟩

/-- Python's `sorted(key=key, reverse=True)` restricted to rational keys: a
stable descending sort. `insertDesc` inserts an element that originally
preceded the whole tail, so it goes in front of every element whose key is
`≤` its own (on ties the original — earlier — element stays first, exactly
the stability guarantee of CPython's sort under `reverse=True`). -/
def insertDesc (key : α → ℚ) (a : α) : List α → List α
  | [] => [a]
  | b :: bs => if key b ≤ key a then a :: b :: bs else b :: insertDesc key a bs

/-- Stable descending sort by a rational key; see `insertDesc`. -/
def sortDescBy (key : α → ℚ) : List α → List α
  | [] => []
  | a :: as => insertDesc key a (sortDescBy key as)

/-- `get_similar_movies(movie_id, n)` from `src/api.py`:
```python
if cosine_sim is None:
    raise HTTPException(status_code=404, detail="Genre similarity data not available")
if movie_id not in movies["movieId"].values:
    raise HTTPException(status_code=404, detail="Movie not found")
idx = movies.index[movies["movieId"] == movie_id][0]
sim_scores = list(enumerate(cosine_sim[idx]))
sim_scores = sorted(sim_scores, key=lambda x: x[1], reverse=True)[1:n + 1]
movie_indices = [i[0] for i in sim_scores]
similar = movies.iloc[movie_indices][["movieId", "title", "genres", "year"]]
return similar.to_dict(orient="records")
```
The similarity matrix always has one row and one column per catalog row, so
the `getD`/`filterMap` total-function fallbacks are never exercised on the
inputs the module builds. -/
def get_similar_movies (cosine_sim : Option (List (List ℚ))) (movies : List Movie)
    (movie_id : Int) (n : Nat) : Except HTTPException (List MovieRecord) :=
  match cosine_sim with
  | none => .error genreUnavailableError
  | some sim =>
    if movie_id ∉ movies.map Movie.movieId then .error movieNotFoundError
    else
      let idx := movies.findIdx (fun m => m.movieId == movie_id)
      let row := sim.getD idx []
      let sim_scores := (sortDescBy Prod.snd row.enum).drop 1 |>.take n
      let movie_indices := sim_scores.map Prod.fst
      .ok ((movie_indices.filterMap (fun i => movies[i]?)).map movieRecord)

/-- The module-level construction of `cosine_sim` in `src/api.py`:
```python
if movies['genres'].str.strip().any():
    tfidf = TfidfVectorizer(stop_words='english')
    tfidf_matrix = tfidf.fit_transform(movies['genres'])
    cosine_sim = cosine_similarity(tfidf_matrix, tfidf_matrix)
else:
    cosine_sim = None
```
The TF-IDF/cosine computation itself lives in the external scikit-learn
library, so it is a parameter `tfidfCosine`; the repository code contributes
the guard: the matrix exists iff some genre string is non-blank after
stripping whitespace. -/
def buildCosineSim (tfidfCosine : List Movie → List (List ℚ))
    (movies : List Movie) : Option (List (List ℚ)) :=
  if movies.any (fun m => !(pyStrip m.genres == "")) then some (tfidfCosine movies)
  else none

/-- Python's banker's rounding of a rational to the nearest integer
(round-half-to-even), the rule `round` uses. -/
def roundHalfEven (q : ℚ) : ℤ :=
  if q - q.floor < 1/2 then q.floor
  else if 1/2 < q - q.floor then q.floor + 1
  else if q.floor % 2 = 0 then q.floor else q.floor + 1

/-- Python's `round(x, 2)` idealised over exact rationals. -/
def round2 (q : ℚ) : ℚ := (roundHalfEven (q * 100) : ℚ) / 100

/-- The record shape returned by `get_top_n_recommendations`: one dict per
recommended movie, with the predicted rating rounded to two decimals. -/
structure RecRecord where
  movieId : Int
  title : String
  year : Option Int
  genres : String
  predicted_rating : ℚ
deriving DecidableEq, Repr

/-- `ratings.loc[ratings["userId"] == user_id, "movieId"].tolist()`: the
ids of the movies the user has already rated. -/
def ratedMovies (ratings : List Rating) (user_id : Int) : List Int :=
  (ratings.filter (fun r => r.userId == user_id)).map Rating.movieId

/-- `movies[~movies["movieId"].isin(rated_movies)]`: catalog rows whose id
the user has not rated, in catalog order. -/
def unratedMovies (ratings : List Rating) (movies : List Movie)
    (user_id : Int) : List Movie :=
  movies.filter (fun m => decide (m.movieId ∉ ratedMovies ratings user_id))

/-- `[(movie_id, model.predict(user_id, movie_id).est) for movie_id in
unrated_movies["movieId"]]`, with the external surprise model's
`predict(u, i).est` abstracted as `predict`. -/
def predictionsFor (predict : Int → Int → ℚ) (ratings : List Rating)
    (movies : List Movie) (user_id : Int) : List (Int × ℚ) :=
  (unratedMovies ratings movies user_id).map
    (fun m => (m.movieId, predict user_id m.movieId))

/-- `sorted(predictions, key=lambda x: x[1], reverse=True)[:n]`. -/
def topNPredictions (predict : Int → Int → ℚ) (ratings : List Rating)
    (movies : List Movie) (user_id : Int) (n : Nat) : List (Int × ℚ) :=
  (sortDescBy Prod.snd (predictionsFor predict ratings movies user_id)).take n

/-- Python's `dict(pairs)[key]`: on duplicate keys the last pair wins; the
code only looks up keys present in the pairs, so the `getD 0` default is
never exercised there. -/
def dictGet (pairs : List (Int × ℚ)) (key : Int) : ℚ :=
  ((pairs.reverse.find? (fun p => p.1 == key)).map Prod.snd).getD 0

/-- `get_top_n_recommendations(user_id, n)` from `src/api.py`:
```python
if user_id not in ratings["userId"].unique():
    raise HTTPException(status_code=404, detail="User ID not found")
rated_movies = ratings.loc[ratings["userId"] == user_id, "movieId"].tolist()
unrated_movies = movies[~movies["movieId"].isin(rated_movies)]
predictions = [(movie_id, model.predict(user_id, movie_id).est)
               for movie_id in unrated_movies["movieId"]]
top_n = sorted(predictions, key=lambda x: x[1], reverse=True)[:n]
top_movies = movies[movies["movieId"].isin([m for m, _ in top_n])]
return [{"movieId": ..., "title": ..., "year": ..., "genres": row.genres or "N/A",
         "predicted_rating": round(float(dict(top_n)[row.movieId]), 2)}
        for _, row in top_movies.iterrows()]
```
Note the final list iterates `top_movies`, a boolean-mask slice of `movies`,
so its rows come in catalog order, not in the sorted order of `top_n`. -/
def get_top_n_recommendations (predict : Int → Int → ℚ) (ratings : List Rating)
    (movies : List Movie) (user_id : Int) (n : Nat) :
    Except HTTPException (List RecRecord) :=
  if user_id ∉ ratings.map Rating.userId then .error userNotFoundError
  else
    let top_n := topNPredictions predict ratings movies user_id n
    let top_movies := movies.filter (fun m => decide (m.movieId ∈ top_n.map Prod.fst))
    .ok (top_movies.map (fun m =>
      ⟨m.movieId, m.title, m.year,
        (if m.genres = "" then "N/A" else m.genres),
        round2 (dictGet top_n m.movieId)⟩))

/-- `RatingInput` (pydantic model): `user_id: int`, `movie_id: int`,
`rating: float`. The only validation pydantic performs is type coercion;
the fields carry no range or existence constraints. -/
structure RatingInput where
  user_id : Int
  movie_id : Int
  rating : ℚ
deriving DecidableEq, Repr

/-- The module-level mutable state of `src/api.py` touched by the route
handlers: the `movies` and `ratings` DataFrames, the trained surprise
`model` (opaque to the routes other than through `predict`, so a type
parameter here) and the `cosine_sim` matrix. -/
structure AppState (Model : Type) where
  movies : List Movie
  ratings : List Rating
  model : Model
  cosine_sim : Option (List (List ℚ))

/-- `rate_movie(rating_input)` from `src/api.py`:
```python
global ratings
new_row = pd.DataFrame([{"userId": rating_input.user_id,
                         "movieId": rating_input.movie_id,
                         "rating": rating_input.rating}])
ratings = pd.concat([ratings, new_row], ignore_index=True)
return {"message": "Rating submitted successfully!"}
```
It appends one row to the global `ratings` and returns a message; no other
global is read or written. -/
def rate_movie (s : AppState Model) (inp : RatingInput) : AppState Model × String :=
  ({ s with ratings :=
      s.ratings ++ [⟨inp.user_id, inp.movie_id, inp.rating⟩] },
   "Rating submitted successfully!")

/-- Modelled from the spec: the trained latent-factor predictor that
`src/api.py` uses through `model.predict(user_id, movie_id).est` lives in
the external surprise library (`SVD`), not under `src/`. Section 4.2 of the
spec documents its trained artifact: a global mean `μ`, and biases and
latent vectors that "exist only for users/items seen during training"; an
unseen user or item contributes nothing. `none` marks an unseen user/item,
`some` carries the learned parameter. The rating scale is the pair passed
to the surprise `Reader`. -/
structure SVDModel where
  mu : ℚ
  userBias : Int → Option ℚ
  itemBias : Int → Option ℚ
  userVec : Int → Option (List ℚ)
  itemVec : Int → Option (List ℚ)
  ratingLo : ℚ
  ratingHi : ℚ

/-- Dot product of two latent vectors. -/
def dotQ (u v : List ℚ) : ℚ := (List.zipWith (fun a b => a * b) u v).sum

/-- Modelled from the spec: the raw estimate of §4.2,
`μ + b_u + b_i + p_u·q_i`, where each term is present only when the
corresponding user/item was seen during training — so an unseen user and a
seen item give the documented fallback `μ + b_i`. This matches the estimate
rule of the external surprise `SVD` the code delegates to. -/
def svdEstimate (m : SVDModel) (u i : Int) : ℚ :=
  m.mu + (m.userBias u).getD 0 + (m.itemBias i).getD 0 +
    (match m.userVec u, m.itemVec i with
     | some pu, some qi => dotQ pu qi
     | _, _ => 0)

/-- Clip a value into `[lo, hi]`. -/
def clip (lo hi x : ℚ) : ℚ := max lo (min hi x)

/-- Modelled from the spec: `predict(user_id, item_id) -> score — clipped
to the valid rating range` (§4.2); the final estimate is clipped into the
rating scale, as the external surprise `predict` does with its default
`clip=True` before exposing `.est`. -/
def svdPredict (m : SVDModel) (u i : Int) : ℚ :=
  clip m.ratingLo m.ratingHi (svdEstimate m u i)

/-! ## Helper lemmas -/

theorem mem_insertDesc {key : α → ℚ} {a x : α} {l : List α} :
    x ∈ insertDesc key a l ↔ x = a ∨ x ∈ l := by
  induction l with
  | nil => simp [insertDesc]
  | cons b bs ih =>
    by_cases h : key b ≤ key a
    · simp [insertDesc, h]
    · simp only [insertDesc, if_neg h, List.mem_cons, ih]
      tauto

theorem mem_sortDescBy {key : α → ℚ} {x : α} {l : List α} :
    x ∈ sortDescBy key l ↔ x ∈ l := by
  induction l with
  | nil => simp [sortDescBy]
  | cons a as ih => simp [sortDescBy, mem_insertDesc, ih]

theorem dictGet_eq_of_mem {pairs : List (Int × ℚ)} {f : Int → ℚ} {key : Int}
    (hall : ∀ p ∈ pairs, p.2 = f p.1) (hmem : key ∈ pairs.map Prod.fst) :
    dictGet pairs key = f key := by
  obtain ⟨p, hp, hpk⟩ := List.mem_map.mp hmem
  have hsome : (pairs.reverse.find? (fun q => q.1 == key)).isSome :=
    List.find?_isSome.mpr ⟨p, List.mem_reverse.mpr hp, by simp [hpk]⟩
  obtain ⟨q, hq⟩ := Option.isSome_iff_exists.mp hsome
  have hqmem : q ∈ pairs := List.mem_reverse.mp (List.mem_of_find?_eq_some hq)
  have hqkey : q.1 = key := by simpa using List.find?_some hq
  have hqv := hall q hqmem
  simp [dictGet, hq, hqv, hqkey]

theorem mem_predictionsFor {predict : Int → Int → ℚ} {ratings : List Rating}
    {movies : List Movie} {user_id : Int} {p : Int × ℚ}
    (hp : p ∈ predictionsFor predict ratings movies user_id) :
    p.1 ∉ ratedMovies ratings user_id ∧ p.2 = predict user_id p.1 := by
  obtain ⟨m, hm, rfl⟩ := List.mem_map.mp hp
  have hf := (List.mem_filter.mp hm).2
  exact ⟨of_decide_eq_true hf, rfl⟩

theorem topNPredictions_subset {predict : Int → Int → ℚ} {ratings : List Rating}
    {movies : List Movie} {user_id : Int} {n : Nat} {p : Int × ℚ}
    (hp : p ∈ topNPredictions predict ratings movies user_id n) :
    p ∈ predictionsFor predict ratings movies user_id :=
  mem_sortDescBy.mp (List.take_subset _ _ hp)

theorem nodup_length_le_of_subset {l L : List Int} (h : l.Nodup) (hs : l ⊆ L) :
    l.length ≤ L.length := by
  calc l.length = l.toFinset.card := (List.toFinset_card_of_nodup h).symm
    _ ≤ L.toFinset.card := by
        refine Finset.card_le_card ?_
        intro x hx
        simp only [List.mem_toFinset] at hx ⊢
        exact hs hx
    _ ≤ L.length := L.toFinset_card_le

/-! ## Claims -/

/-- C6: for every user that appears in zero rating rows (and with no
ephemeral-override path existing in `get_top_n_recommendations` at all),
the recommendation query fails with the unknown-user error — HTTP 404,
detail "User ID not found" — rather than returning a list. -/
theorem recommend_unknown_user_fails (predict : Int → Int → ℚ)
    (ratings : List Rating) (movies : List Movie) (user_id : Int) (n : Nat)
    (h : user_id ∉ ratings.map Rating.userId) :
    get_top_n_recommendations predict ratings movies user_id n
      = .error userNotFoundError := by
  simp [get_top_n_recommendations, h]

/-- Witness for C6: user 2 has no rating rows, and the query errors. -/
theorem recommend_unknown_user_fails_witness :
    get_top_n_recommendations (fun _ _ => 3) [⟨1, 5, 4⟩] [⟨5, "A", "", none⟩] 2 5
      = .error userNotFoundError :=
  recommend_unknown_user_fails (fun _ _ => 3) [⟨1, 5, 4⟩] [⟨5, "A", "", none⟩] 2 5
    (by decide)

/-- C4: for a user with at least one rating row (on a catalog whose movie
ids are distinct, as the data model requires), `get_top_n_recommendations`
succeeds and returns at most `n` records, none of whose ids the user has
already rated, each carrying as its score the predictor's value for
`(user, item)` rounded to two decimals. -/
theorem recommend_props (predict : Int → Int → ℚ) (ratings : List Rating)
    (movies : List Movie) (user_id : Int) (n : Nat)
    (hu : user_id ∈ ratings.map Rating.userId)
    (hids : (movies.map Movie.movieId).Nodup) :
    ∃ recs, get_top_n_recommendations predict ratings movies user_id n = .ok recs
      ∧ recs.length ≤ n
      ∧ (∀ r ∈ recs, r.movieId ∉ ratedMovies ratings user_id)
      ∧ (∀ r ∈ recs, r.predicted_rating = round2 (predict user_id r.movieId)) := by
  have hok : get_top_n_recommendations predict ratings movies user_id n
      = .ok ((movies.filter (fun m =>
            decide (m.movieId ∈ (topNPredictions predict ratings movies user_id n).map Prod.fst))).map
          (fun m => ⟨m.movieId, m.title, m.year,
            (if m.genres = "" then "N/A" else m.genres),
            round2 (dictGet (topNPredictions predict ratings movies user_id n) m.movieId)⟩)) := by
    rw [get_top_n_recommendations, if_neg (not_not_intro hu)]
  refine ⟨_, hok, ?_, ?_, ?_⟩
  · rw [List.length_map]
    have h1 : ((movies.filter (fun m =>
        decide (m.movieId ∈ (topNPredictions predict ratings movies user_id n).map Prod.fst))).map
          Movie.movieId).Nodup :=
      hids.sublist ((List.filter_sublist movies).map Movie.movieId)
    have h2 : ((movies.filter (fun m =>
        decide (m.movieId ∈ (topNPredictions predict ratings movies user_id n).map Prod.fst))).map
          Movie.movieId)
        ⊆ (topNPredictions predict ratings movies user_id n).map Prod.fst := by
      intro x hx
      obtain ⟨m, hm, rfl⟩ := List.mem_map.mp hx
      exact of_decide_eq_true (List.mem_filter.mp hm).2
    calc (movies.filter (fun m =>
          decide (m.movieId ∈ (topNPredictions predict ratings movies user_id n).map Prod.fst))).length
        = ((movies.filter (fun m =>
            decide (m.movieId ∈ (topNPredictions predict ratings movies user_id n).map Prod.fst))).map
              Movie.movieId).length := (List.length_map _ _).symm
      _ ≤ ((topNPredictions predict ratings movies user_id n).map Prod.fst).length :=
          nodup_length_le_of_subset h1 h2
      _ = (topNPredictions predict ratings movies user_id n).length := List.length_map _ _
      _ ≤ n := (sortDescBy Prod.snd (predictionsFor predict ratings movies user_id)).length_take_le n
  · intro r hr
    obtain ⟨m, hm, rfl⟩ := List.mem_map.mp hr
    have hmid : m.movieId ∈ (topNPredictions predict ratings movies user_id n).map Prod.fst :=
      of_decide_eq_true (List.mem_filter.mp hm).2
    obtain ⟨p, hp, hpk⟩ := List.mem_map.mp hmid
    have hnotr := (mem_predictionsFor (topNPredictions_subset hp)).1
    simpa [hpk] using hnotr
  · intro r hr
    obtain ⟨m, hm, rfl⟩ := List.mem_map.mp hr
    have hmid : m.movieId ∈ (topNPredictions predict ratings movies user_id n).map Prod.fst :=
      of_decide_eq_true (List.mem_filter.mp hm).2
    have hall : ∀ p ∈ topNPredictions predict ratings movies user_id n,
        p.2 = predict user_id p.1 :=
      fun p hp => (mem_predictionsFor (topNPredictions_subset hp)).2
    simp [dictGet_eq_of_mem hall hmid]

/-- Witness for C4: one rated movie, two-movie catalog, `n = 1`. -/
theorem recommend_props_witness :
    ∃ recs, get_top_n_recommendations (fun _ m => (m : ℚ)) [⟨1, 1, 5⟩]
        [⟨1, "A", "", none⟩, ⟨2, "B", "", none⟩] 1 1 = .ok recs
      ∧ recs.length ≤ 1
      ∧ (∀ r ∈ recs, r.movieId ∉ ratedMovies [⟨1, 1, 5⟩] 1)
      ∧ (∀ r ∈ recs, r.predicted_rating = round2 ((fun _ m => (m : ℚ)) 1 r.movieId)) :=
  recommend_props (fun _ m => (m : ℚ)) [⟨1, 1, 5⟩]
    [⟨1, "A", "", none⟩, ⟨2, "B", "", none⟩] 1 1 (by decide) (by decide)

/-- Two movies with the identical tag string "Action"; scikit-learn's
TF-IDF assigns both the same one-dimensional unit vector, so every entry of
their cosine-similarity matrix is exactly 1. -/
def actionPairMovies : List Movie :=
  [⟨1, "Toy Story", "Action", none⟩, ⟨2, "Heat", "Action", none⟩]

/-- C1: evaluating `get_similar_movies` on the failing input. With the
all-ones similarity matrix of `actionPairMovies`, the query `similar(2, 1)`
returns movie 2 — the query item itself. The stable descending sort keeps
the tied row `(0, 1)` for movie 1 ahead of `(1, 1)` for movie 2, so the
`[1:n+1]` slice drops movie 1 and keeps the query item. -/
theorem similar_includes_query_item :
    ∃ recs, get_similar_movies (some [[1, 1], [1, 1]]) actionPairMovies 2 1 = .ok recs
      ∧ 2 ∈ recs.map MovieRecord.movieId :=
  ⟨[⟨2, "Heat", "Action", none⟩], by decide, by decide⟩

/-- The three-movie catalog of the spec's §8 scenario. -/
def triMovies : List Movie :=
  [⟨1, "Toy Story", "Animation Comedy", none⟩, ⟨2, "Heat", "Action Crime", none⟩,
   ⟨3, "GoldenEye", "Action Adventure", none⟩]

/-- A similarity matrix for `triMovies`. -/
def simMatrixA : List (List ℚ) :=
  [[1, 9/10, 1/2], [9/10, 1, 2/5], [1/2, 2/5, 1]]

/-- A second similarity matrix for `triMovies` with the same ranking but
different scores. -/
def simMatrixB : List (List ℚ) :=
  [[1, 4/5, 3/10], [4/5, 1, 1/5], [3/10, 1/5, 1]]

/-- C2 counterexample: the similarity score is not part of the returned
results. Two different similarity matrices that agree only on the ranking
produce identical outputs — the scores 9/10 and 1/2 of the returned movies
under `simMatrixA` versus 4/5 and 3/10 under `simMatrixB` are nowhere in
the result, which carries only movieId, title, genres and year. -/
theorem similar_output_ignores_scores :
    get_similar_movies (some simMatrixA) triMovies 1 2
      = get_similar_movies (some simMatrixB) triMovies 1 2
    ∧ simMatrixA ≠ simMatrixB
    ∧ get_similar_movies (some simMatrixA) triMovies 1 2
      = .ok [⟨2, "Heat", "Action Crime", none⟩,
             ⟨3, "GoldenEye", "Action Adventure", none⟩] := by
  refine ⟨by decide, by decide, by decide⟩

/-- C2 (amended): each entry returned by `get_similar_movies` is the
catalog metadata projection (movieId, title, genres, year) of some catalog
row; no similarity score is included in the returned records. -/
theorem similar_returns_metadata_records (cs : List (List ℚ))
    (movies : List Movie) (movie_id : Int) (n : Nat) (recs : List MovieRecord)
    (h : get_similar_movies (some cs) movies movie_id n = .ok recs) :
    ∀ r ∈ recs, ∃ m ∈ movies, r = movieRecord m := by
  rw [get_similar_movies] at h
  by_cases hmem : movie_id ∉ movies.map Movie.movieId
  · rw [if_pos hmem] at h
    cases h
  · rw [if_neg hmem] at h
    injection h with h
    subst h
    intro r hr
    obtain ⟨m, hm, rfl⟩ := List.mem_map.mp hr
    obtain ⟨i, _, hmi⟩ := List.mem_filterMap.mp hm
    exact ⟨m, List.getElem?_mem hmi, rfl⟩

/-- Witness for the amended C2: the first record returned for
`similar(1, 2)` on `triMovies` is the metadata projection of a catalog
row. -/
theorem similar_returns_metadata_records_witness :
    ∃ m ∈ triMovies, (⟨2, "Heat", "Action Crime", none⟩ : MovieRecord) = movieRecord m :=
  similar_returns_metadata_records simMatrixA triMovies 1 2
    [⟨2, "Heat", "Action Crime", none⟩, ⟨3, "GoldenEye", "Action Adventure", none⟩]
    (by decide) _ (by decide)

/-- C3: when every catalog tag string strips to empty, the module builds no
similarity matrix and every similarity query fails with the
data-unavailable error; that error is a different payload from the
movie-not-found error, which is what a query with an absent id receives
when the matrix does exist. -/
theorem similar_unavailable_distinct (tfidfCosine : List Movie → List (List ℚ))
    (movies : List Movie) (movie_id : Int) (n : Nat)
    (hempty : ∀ m ∈ movies, pyStrip m.genres = "") :
    get_similar_movies (buildCosineSim tfidfCosine movies) movies movie_id n
        = .error genreUnavailableError
    ∧ genreUnavailableError ≠ movieNotFoundError
    ∧ ∀ (sim : List (List ℚ)) (ms : List Movie) (mid : Int) (k : Nat),
        mid ∉ ms.map Movie.movieId →
        get_similar_movies (some sim) ms mid k = .error movieNotFoundError := by
  refine ⟨?_, by decide, ?_⟩
  · have hnone : buildCosineSim tfidfCosine movies = none := by
      have hany : movies.any (fun m => !(pyStrip m.genres == "")) = false := by
        rw [List.any_eq_false]
        intro m hm
        simp [hempty m hm]
      simp [buildCosineSim, hany]
    rw [hnone, get_similar_movies]
  · intro sim ms mid k hmid
    rw [get_similar_movies, if_pos hmid]

/-- Witness for C3: a one-movie catalog whose genre string is blank. -/
theorem similar_unavailable_distinct_witness :
    get_similar_movies (buildCosineSim (fun _ => []) [⟨1, "A", " ", none⟩])
        [⟨1, "A", " ", none⟩] 1 5 = .error genreUnavailableError
    ∧ genreUnavailableError ≠ movieNotFoundError
    ∧ ∀ (sim : List (List ℚ)) (ms : List Movie) (mid : Int) (k : Nat),
        mid ∉ ms.map Movie.movieId →
        get_similar_movies (some sim) ms mid k = .error movieNotFoundError :=
  similar_unavailable_distinct (fun _ => []) [⟨1, "A", " ", none⟩] 1 5 (by decide)

/-- C5 counterexample: the list returned by the recommender is not ordered
by predicted score descending. User 1 rated only movie 100, the predictor
scores movie 1 at 1 and movie 2 at 2, and the returned list carries the
lower-scored movie 1 first, because the final list is rebuilt from a
boolean mask over the catalog and therefore follows catalog order. -/
theorem recommend_not_score_sorted :
    ∃ r1 r2, get_top_n_recommendations (fun _ m => (m : ℚ)) [⟨1, 100, 4⟩]
        [⟨1, "A", "", none⟩, ⟨2, "B", "", none⟩] 1 2 = .ok [r1, r2]
      ∧ r1.predicted_rating < r2.predicted_rating :=
  ⟨⟨1, "A", none, "N/A", 1⟩, ⟨2, "B", none, "N/A", 2⟩, by decide, by decide⟩

/-- C5 (amended): the returned recommendation list follows catalog order —
its sequence of movie ids is a sublist of the catalog's id sequence (the
top-n selection is made by predicted score, but the final list is emitted
in catalog position order, not score order). -/
theorem recommend_catalog_order (predict : Int → Int → ℚ)
    (ratings : List Rating) (movies : List Movie) (user_id : Int) (n : Nat)
    (recs : List RecRecord)
    (h : get_top_n_recommendations predict ratings movies user_id n = .ok recs) :
    List.Sublist (recs.map RecRecord.movieId) (movies.map Movie.movieId) := by
  rw [get_top_n_recommendations] at h
  by_cases hu : user_id ∉ ratings.map Rating.userId
  · rw [if_pos hu] at h
    cases h
  · rw [if_neg hu] at h
    injection h with h
    subst h
    rw [List.map_map]
    exact (List.filter_sublist movies).map _

/-- Witness for the amended C5: the concrete run of the counterexample
input indeed lists ids in catalog order. -/
theorem recommend_catalog_order_witness :
    List.Sublist
      ([(⟨1, "A", none, "N/A", 1⟩ : RecRecord), ⟨2, "B", none, "N/A", 2⟩].map
        RecRecord.movieId)
      ([(⟨1, "A", "", none⟩ : Movie), ⟨2, "B", "", none⟩].map Movie.movieId) :=
  recommend_catalog_order (fun _ m => (m : ℚ)) [⟨1, 100, 4⟩]
    [⟨1, "A", "", none⟩, ⟨2, "B", "", none⟩] 1 2 _ (by decide)

/-- A trained-model state in which user 999 is unseen, item 2 is seen with
bias 2, and the global mean is 4 on the scale [1, 5]: `μ + b_2 = 6` falls
outside the scale. -/
def clipModel : SVDModel where
  mu := 4
  userBias := fun _ => none
  itemBias := fun i => if i = 2 then some 2 else none
  userVec := fun _ => none
  itemVec := fun _ => none
  ratingLo := 1
  ratingHi := 5

/-- C8 counterexample: for the unseen user 999 and the seen item 2 of
`clipModel`, prediction is the clipped value 5, not the fallback
`μ + b_2 = 6` — no floating tolerance bridges a gap of 1. -/
theorem predict_unseen_user_clipped :
    clipModel.userBias 999 = none ∧ clipModel.itemBias 2 = some 2
    ∧ svdPredict clipModel 999 2 = 5
    ∧ svdPredict clipModel 999 2 ≠ clipModel.mu + 2 := by
  refine ⟨by decide, by decide, by decide, by decide⟩

/-- C8 (amended): for an unseen user and a seen item the predictor returns
the clipped fallback `clip(μ + b_i)`; whenever `μ + b_i` already lies
within the rating bounds, this equals `μ + b_i` exactly. -/
theorem predict_unseen_user_fallback (m : SVDModel) (u i : Int) (b : ℚ)
    (hu1 : m.userBias u = none) (hu2 : m.userVec u = none)
    (hb : m.itemBias i = some b)
    (hlo : m.ratingLo ≤ m.mu + b) (hhi : m.mu + b ≤ m.ratingHi) :
    svdPredict m u i = m.mu + b := by
  have hest : svdEstimate m u i = m.mu + b := by
    rw [svdEstimate, hu1, hu2, hb]
    cases hvi : m.itemVec i <;> simp
  rw [svdPredict, hest, clip, min_eq_right hhi, max_eq_right hlo]

/-- A trained-model state with μ = 3 and item bias 1/2 for item 2: the
fallback 7/2 lies inside the scale [1, 5]. -/
def inRangeModel : SVDModel where
  mu := 3
  userBias := fun _ => none
  itemBias := fun i => if i = 2 then some (1/2) else none
  userVec := fun _ => none
  itemVec := fun _ => none
  ratingLo := 1
  ratingHi := 5

/-- Witness for the amended C8. -/
theorem predict_unseen_user_fallback_witness :
    svdPredict inRangeModel 999 2 = inRangeModel.mu + 1/2 :=
  predict_unseen_user_fallback inRangeModel 999 2 (1/2)
    (by decide) (by decide) (by decide) (by decide) (by decide)

/-- C9: submitting a rating appends exactly one row `(user_id, movie_id,
rating)` to the rating corpus and leaves the catalog, the trained model and
the similarity index untouched — in particular no retraining happens as
part of the submission (the model component of the state is unchanged;
retraining is only performed by the separate `/retrain` route). -/
theorem rateMovie_appends_one_row_only {Model : Type} (s : AppState Model)
    (inp : RatingInput) :
    (rate_movie s inp).1.ratings
        = s.ratings ++ [⟨inp.user_id, inp.movie_id, inp.rating⟩]
    ∧ (rate_movie s inp).1.movies = s.movies
    ∧ (rate_movie s inp).1.model = s.model
    ∧ (rate_movie s inp).1.cosine_sim = s.cosine_sim :=
  ⟨rfl, rfl, rfl, rfl⟩

/-- C10: the rating route validates nothing: any user id, any movie id
(present in the catalog or not) and any rating value (inside the rating
scale or not) is accepted — the handler reports success and the triple is
recorded in the corpus. -/
theorem rateMovie_accepts_everything {Model : Type} (s : AppState Model)
    (u mid : Int) (r : ℚ) :
    (rate_movie s ⟨u, mid, r⟩).2 = "Rating submitted successfully!"
    ∧ (⟨u, mid, r⟩ : Rating) ∈ (rate_movie s ⟨u, mid, r⟩).1.ratings := by
  refine ⟨rfl, ?_⟩
  simp [rate_movie]
